import Mathlib

/-!
Verification development for the Olympic-games dashboard pipeline
(`src/dashboard_olympicgames2.py` and its near-duplicate variants).

The embedding models the filter-and-aggregate pipeline:
* `Record` is one row of the main participation table (`jjoo.csv`);
  nullable pandas columns become `Option` fields.
* Pandas semantics used throughout: comparison of a null (`NaN`) cell with
  `==`, `>=`, `<=` or `isin` yields `False`; `Series.mean` skips nulls;
  boolean-mask indexing returns a fresh frame.
-/

/-- One row of the main participation table.  Nullable columns
(`gender`, `medal`, `age`) are `Option`s; a `none` models a NaN cell. -/
structure Record where
  year : Int
  type : String
  noc : String
  gender : Option String
  medal : Option String
  age : Option ℚ
  name : String
  discipline : String
  discipline_grouped : String
deriving Repr, DecidableEq

/-- The global filter configuration collected from the sidebar widgets:
`selected_years` (inclusive year range), `selected_type` (`none` models
the `'All'`/`'Todos'` choice), the country and medal dropdowns of
`app_corregido.py` (`none` models `'Todos'`/`'Todas'`), and the gender
multiselect (a list; empty means no gender constraint is applied). -/
structure FilterPred where
  yearLo : Int
  yearHi : Int
  gamesType : Option String
  country : Option String
  medal : Option String
  genders : List String
deriving Repr, DecidableEq

/-- Pandas `Series.isin(sel)` on a nullable string column: a NaN cell is
never a member, a present cell is tested by equality. -/
def optIsin (v : Option String) (sel : List String) : Bool :=
  match v with
  | none => false
  | some s => sel.contains s

/-- Model of `df[(df.year >= lo) & (df.year <= hi)]` (lines 118-121 of
`dashboard_olympicgames2.py`). -/
def yearStage (p : FilterPred) (l : List Record) : List Record :=
  l.filter (fun r => decide (p.yearLo ≤ r.year) && decide (r.year ≤ p.yearHi))

/-- Model of `if selected_type != 'All': df = df[df.type == selected_type]`
(lines 122-123). -/
def typeStage (p : FilterPred) (l : List Record) : List Record :=
  match p.gamesType with
  | none => l
  | some t => l.filter (fun r => r.type == t)

/-- Model of `if pais != 'Todos': df = df[df.noc == pais]`
(`app_corregido.py` lines 36-37). -/
def countryStage (p : FilterPred) (l : List Record) : List Record :=
  match p.country with
  | none => l
  | some c => l.filter (fun r => r.noc == c)

/-- Model of `if medalla != 'Todas': df = df[df.medal == medalla]`
(`app_corregido.py` lines 40-41); pandas `==` on a NaN medal is `False`. -/
def medalStage (p : FilterPred) (l : List Record) : List Record :=
  match p.medal with
  | none => l
  | some m => l.filter (fun r => r.medal == some m)

/-- Model of `if selected_gender: df = df[df.gender.isin(selected_gender)]`
(lines 125-126): an empty multiselect applies no filter at all. -/
def genderStage (sel : List String) (l : List Record) : List Record :=
  if sel.isEmpty then l else l.filter (fun r => optIsin r.gender sel)

/-- The Filter Engine: the source applies the predicate stages one after
another, each as a boolean-mask selection over the previous result. -/
def applyFilters (p : FilterPred) (R : List Record) : List Record :=
  genderStage p.genders (medalStage p (countryStage p (typeStage p (yearStage p R))))

/-- Number of elements of `l` satisfying `p`; pandas `(mask).sum()` over a
boolean column, and the length of a boolean-mask selection. -/
def countB {α : Type} (p : α → Bool) (l : List α) : Nat :=
  (l.filter p).length

/-- Model of `df['medal'].notna() & (df['medal'] != 'No Medal')` (line 192):
a medal cell counts as a medal iff it is present and is not the
`'No Medal'` sentinel. -/
def medal_present (r : Record) : Bool :=
  r.medal.isSome && !(r.medal == some "No Medal")

/-- The group keys of `df.groupby('noc')`: the distinct `noc` values.
(Pandas lists group keys in sorted order; none of the properties proved
here depend on the key order, so first-occurrence order is used.) -/
def nocGroups (R : List Record) : List String :=
  (R.map (·.noc)).dedup

/-- One output row of `metrics_by_noc` (lines 194-203). -/
structure NocMetrics where
  noc : String
  Total_Athletes : Nat
  Total_Medals : Nat
  Gold : Nat
  Silver : Nat
  Bronze : Nat
deriving Repr, DecidableEq

/-- The aggregation body of `metrics_by_noc` for one `noc` group:
`Total_Athletes = nunique(name)`, `Total_Medals = medal_present.sum()`,
and `(medal == 'Gold').sum()` etc. for the three medal columns. -/
def metrics_for (R : List Record) (k : String) : NocMetrics :=
  let g := R.filter (fun r => r.noc == k)
  { noc := k
    Total_Athletes := ((g.map (·.name)).dedup).length
    Total_Medals := countB medal_present g
    Gold := countB (fun r => r.medal == some "Gold") g
    Silver := countB (fun r => r.medal == some "Silver") g
    Bronze := countB (fun r => r.medal == some "Bronze") g }

/-- Model of `metrics_by_noc = df_filtered.groupby('noc').agg(...)`
(lines 194-203):
one metrics row per distinct `noc`. -/
def metrics_by_noc (R : List Record) : List NocMetrics :=
  (nocGroups R).map (metrics_for R)

/-- One raw row of the coordinate CSV; every cell may be null. -/
structure RawCoordRow where
  noc : Option String
  country : Option String
  latitude : Option ℚ
  longitude : Option ℚ
deriving Repr, DecidableEq

/-- The coordinate CSV as read: which of the four required columns are
present in the header, and the rows. -/
structure RawCoordTable where
  hasNoc : Bool
  hasCountry : Bool
  hasLatitude : Bool
  hasLongitude : Bool
  rows : List RawCoordRow
deriving Repr, DecidableEq

/-- Outcome of `pd.read_csv` on the coordinate file: a parsed table, a
`FileNotFoundError`, or any other exception. -/
inductive ReadOutcome where
  | ok (t : RawCoordTable)
  | fileNotFound
  | otherError
deriving Repr, DecidableEq

/-- A coordinate row with no null among the four required cells
(the `dropna(subset=['noc','country','latitude','longitude'])` test). -/
def rowComplete (r : RawCoordRow) : Bool :=
  r.noc.isSome && r.country.isSome && r.latitude.isSome && r.longitude.isSome

/-- Model of `load_noc_coords` (lines 44-63): on a parsed table with all four
required columns it drops null-bearing rows and keeps exactly the four
columns (the row type here has exactly those four fields); on a missing
column, a missing file, or any other exception it returns an empty table
with those four columns. -/
def load_noc_coords : ReadOutcome → List RawCoordRow
  | .ok t =>
      if t.hasNoc && t.hasCountry && t.hasLatitude && t.hasLongitude then
        t.rows.filter rowComplete
      else []
  | .fileNotFound => []
  | .otherError => []

/-- The main CSV as read: its header columns and its raw cell rows. -/
structure RawTable where
  cols : List String
  rows : List (List String)
deriving Repr, DecidableEq

/-- The `essential_cols` list (line 28 of `load_data`). -/
def essential_cols : List String :=
  ["year", "type", "noc", "medal", "age", "gender", "discipline_grouped", "name", "discipline"]

/-- Model of
`missing_cols = [col for col in essential_cols if col not in df.columns]`
(line 29). -/
def missing_cols (t : RawTable) : List String :=
  essential_cols.filter (fun c => !t.cols.contains c)

/-- Outcome of `pd.read_csv` on the main file. -/
inductive MainReadOutcome where
  | ok (t : RawTable)
  | fileNotFound
  | otherError
deriving Repr, DecidableEq

/-- Model of `load_data` (lines 18-41): on a parsed table with all essential
columns it returns the table; on any missing column it calls `st.error`
and returns `pd.DataFrame()` (the empty table), and it returns the same
empty table on `FileNotFoundError` and on any other exception. -/
def load_data : MainReadOutcome → RawTable
  | .ok t => if (missing_cols t).isEmpty then t else ⟨[], []⟩
  | .fileNotFound => ⟨[], []⟩
  | .otherError => ⟨[], []⟩

/-- The left join plus null-coordinate drop of the geographic tab
(lines 229-230):
`pd.merge(metrics_by_noc[Total_Medals > 0], df_coords, on='noc', how='left')`
followed by `dropna(subset=['latitude','longitude'], inplace=True)`.
A joined row is a metrics row together with the matched coordinate row
(`none` models the all-NaN right side of an unmatched left row).
`coordMatches` is the set of coordinate rows whose `noc` key equals the
metrics row's key. -/
def coordMatches (coords : List RawCoordRow) (m : NocMetrics) : List RawCoordRow :=
  coords.filter (fun c => c.noc == some m.noc)

/-- The rows `how='left'` produces for one left row: one row per key match,
or a single row whose right side is all-NaN (`none`) when nothing matches. -/
def leftJoinRows (coords : List RawCoordRow) (m : NocMetrics) :
    List (NocMetrics × Option RawCoordRow) :=
  if (coordMatches coords m).isEmpty then [(m, none)]
  else (coordMatches coords m).map (fun c => (m, some c))

/-- The `dropna(subset=['latitude','longitude'])` test on a joined row: an
unmatched row carries NaN coordinates and is dropped. -/
def joinRowKept (x : NocMetrics × Option RawCoordRow) : Bool :=
  match x.2 with
  | none => false
  | some c => c.latitude.isSome && c.longitude.isSome

def df_map_data (metrics : List NocMetrics) (coords : List RawCoordRow) :
    List (NocMetrics × Option RawCoordRow) :=
  ((metrics.filter (fun m => decide (0 < m.Total_Medals))).flatMap
      (leftJoinRows coords)).filter joinRowKept

/-- Model of `list(df['gender'].unique())` followed by removal of NaNs
(lines 104-107): the distinct non-null gender values, the options offered
by the gender multiselect (all selected by default). -/
def gender_options (R : List Record) : List String :=
  ((R.map (·.gender)).dedup).filterMap id

/-- Pandas `Series.mean()` with its default `skipna=True`: the mean of
the present values; `none` models the NaN result on an all-null column. -/
def meanOpt (vs : List (Option ℚ)) : Option ℚ :=
  let xs := vs.filterMap id
  if xs.isEmpty then none else some (xs.sum / xs.length)

/-- The `age` column of the rows of discipline `d` inside the
`isin`-restricted view: `df_filtered[df_filtered.discipline.isin(ds)]`
grouped by `discipline`, one group's `age` cells. -/
def agesOf (R : List Record) (ds : List String) (d : String) : List (Option ℚ) :=
  ((R.filter (fun r => ds.contains r.discipline)).filter
      (fun r => r.discipline == d)).map (·.age)

/-- The non-null ages of one discipline group (the cells `Series.mean`
actually averages). -/
def nonNullAges (R : List Record) (ds : List String) (d : String) : List ℚ :=
  (agesOf R ds d).filterMap id

/-- The mean age of one `discipline` group of
`df_filtered[df_filtered.discipline.isin(ds)].groupby('discipline')['age'].mean()`. -/
def groupMeanAge (R : List Record) (ds : List String) (d : String) : Option ℚ :=
  meanOpt (agesOf R ds d)

/-- Model of `age_by_discipline` (lines 410-412), keyed output: the view is
restricted to the disciplines `ds` (the top-20 list), grouped by
`discipline`, and the skipna mean of `age` is taken per group.  (The
final `sort_values('age')` only reorders rows; the pairs are the same.) -/
def age_by_discipline (R : List Record) (ds : List String) :
    List (String × Option ℚ) :=
  let sub := R.filter (fun r => ds.contains r.discipline)
  ((sub.map (·.discipline)).dedup).map (fun d => (d, groupMeanAge R ds d))

/-- The global tables bound once at startup (lines 66-67):
`df_olympics = load_data()` and `df_coords = load_noc_coords()`. -/
structure Store where
  df_olympics : List Record
  df_coords : List RawCoordRow
deriving Repr, DecidableEq

/-- The derived views one interaction produces. -/
structure PipelineOutputs where
  filtered : List Record
  metrics : List NocMetrics
  mapData : List (NocMetrics × Option RawCoordRow)
deriving Repr, DecidableEq

/-- One interaction: filter, aggregate, join.  Pandas boolean-mask
indexing returns a fresh frame, so the column assignment
`df_filtered['medal_present'] = ...` (line 192) and the in-place
`dropna` on the merge result (line 230) touch only derived copies; the
state handed to the next interaction carries the loaded tables as the
code leaves them. -/
def runPipeline (s : Store) (p : FilterPred) : Store × PipelineOutputs :=
  let dfF := applyFilters p s.df_olympics
  let metrics := metrics_by_noc dfF
  let mapD := df_map_data metrics s.df_coords
  (⟨s.df_olympics, s.df_coords⟩, ⟨dfF, metrics, mapD⟩)

/-- A session: the pipeline re-runs wholesale on every filter change,
threading the store through. -/
def runSession : Store → List FilterPred → Store × List PipelineOutputs
  | s, [] => (s, [])
  | s, p :: ps =>
      let step := runPipeline s p
      let rest := runSession step.1 ps
      (rest.1, step.2 :: rest.2)

/-- A gold-medal row of the worked example of the specification. -/
def rA : Record :=
  ⟨2000, "Summer", "USA", some "Male", some "Gold", some 22, "A", "Judo", "Combat"⟩

/-- An unmedaled (null medal) row of the worked example. -/
def rB : Record :=
  ⟨2000, "Summer", "USA", some "Female", none, some 24, "B", "Judo", "Combat"⟩

/-- A silver-medal row of the worked example, with a null age. -/
def rC : Record :=
  ⟨2004, "Summer", "FRA", some "Male", some "Silver", none, "C", "Fencing", "Combat"⟩

/-- A row with a null gender and the explicit `'No Medal'` sentinel. -/
def rN : Record :=
  ⟨2000, "Winter", "GER", none, some "No Medal", none, "D", "Luge", "Sliding"⟩

/-- A null-age row in the same discipline as `rA`. -/
def rD : Record :=
  ⟨2000, "Summer", "USA", some "Female", none, none, "E", "Judo", "Combat"⟩

/-! ### Helper lemmas -/

/-- Each optional stage of the Filter Engine is extensionally a single
boolean-mask filter (the disabled stage is the filter by `true`). -/
theorem typeStage_is_filter (p : FilterPred) :
    ∃ q : Record → Bool, ∀ l, typeStage p l = l.filter q := by
  cases h : p.gamesType with
  | none => exact ⟨fun _ => true, fun l => by simp [typeStage, h]⟩
  | some t => exact ⟨fun r => r.type == t, fun l => by simp [typeStage, h]⟩

theorem countryStage_is_filter (p : FilterPred) :
    ∃ q : Record → Bool, ∀ l, countryStage p l = l.filter q := by
  cases h : p.country with
  | none => exact ⟨fun _ => true, fun l => by simp [countryStage, h]⟩
  | some c => exact ⟨fun r => r.noc == c, fun l => by simp [countryStage, h]⟩

theorem medalStage_is_filter (p : FilterPred) :
    ∃ q : Record → Bool, ∀ l, medalStage p l = l.filter q := by
  cases h : p.medal with
  | none => exact ⟨fun _ => true, fun l => by simp [medalStage, h]⟩
  | some m => exact ⟨fun r => r.medal == some m, fun l => by simp [medalStage, h]⟩

theorem genderStage_is_filter (sel : List String) :
    ∃ q : Record → Bool, ∀ l, genderStage sel l = l.filter q := by
  by_cases h : sel.isEmpty
  · exact ⟨fun _ => true, fun l => by simp [genderStage, h]⟩
  · exact ⟨fun r => optIsin r.gender sel, fun l => by simp [genderStage, h]⟩

/-- The whole Filter Engine is extensionally one boolean-mask filter. -/
theorem applyFilters_is_filter (p : FilterPred) :
    ∃ q : Record → Bool, ∀ l, applyFilters p l = l.filter q := by
  obtain ⟨q2, h2⟩ := typeStage_is_filter p
  obtain ⟨q3, h3⟩ := countryStage_is_filter p
  obtain ⟨q4, h4⟩ := medalStage_is_filter p
  obtain ⟨q5, h5⟩ := genderStage_is_filter p.genders
  refine ⟨fun r => q5 r && q4 r && q3 r && q2 r &&
    (decide (p.yearLo ≤ r.year) && decide (r.year ≤ p.yearHi)), fun l => ?_⟩
  rw [applyFilters, yearStage, h2, h3, h4, h5, List.filter_filter,
    List.filter_filter, List.filter_filter, List.filter_filter]

/-- C5: for every record set R and every predicate configuration P (year
range, games type, country, medal, gender set), the Filter Engine's apply
is idempotent: `apply(apply(R,P),P) = apply(R,P)`. -/
theorem c5_applyFilters_idempotent (p : FilterPred) (R : List Record) :
    applyFilters p (applyFilters p R) = applyFilters p R := by
  obtain ⟨q, hq⟩ := applyFilters_is_filter p
  rw [hq, hq, List.filter_filter]
  exact List.filter_congr (fun x _ => Bool.and_self (q x))

/-- C4: the session never mutates the loaded tables.  Pandas boolean-mask
indexing copies, so `df_filtered['medal_present'] = ...` and the in-place
`dropna` on the merge result touch only derived frames; across any
sequence of interactions the store holds exactly the tables produced at
load time, and every output is a freshly derived view of them. -/
theorem c4_record_store_immutable (s : Store) (ps : List FilterPred) :
    (runSession s ps).1 = s := by
  induction ps generalizing s with
  | nil => rfl
  | cons p ps ih => simpa [runSession, runPipeline] using ih s

/-- On a record whose gender is `Male` or `Female`, the `isin(['Female'])`
mask is the negation of the `isin(['Male'])` mask. -/
theorem optIsin_female_eq_not_male (r : Record)
    (h : r.gender = some "Male" ∨ r.gender = some "Female") :
    optIsin r.gender ["Female"] = !optIsin r.gender ["Male"] := by
  rcases h with h1 | h1 <;> simp [optIsin, h1]

/-- C6: for every record set R in which only the two gender values `Male`
and `Female` occur, the `gender = Male` filter and the `gender = Female`
filter (with no other constraint) split R into two disjoint parts whose
union reconstructs R exactly (as a permutation of R). -/
theorem c6_gender_partition (R : List Record)
    (h : ∀ r ∈ R, r.gender = some "Male" ∨ r.gender = some "Female") :
    List.Perm (genderStage ["Male"] R ++ genderStage ["Female"] R) R ∧
      ∀ r ∈ genderStage ["Male"] R, r ∉ genderStage ["Female"] R := by
  have hM : genderStage ["Male"] R = R.filter (fun r => optIsin r.gender ["Male"]) := by
    simp [genderStage]
  have hF : genderStage ["Female"] R = R.filter (fun r => optIsin r.gender ["Female"]) := by
    simp [genderStage]
  have hFneg : R.filter (fun r => optIsin r.gender ["Female"]) =
      R.filter (fun r => !optIsin r.gender ["Male"]) :=
    List.filter_congr (fun r hr => optIsin_female_eq_not_male r (h r hr))
  constructor
  · rw [hM, hF, hFneg]
    exact List.filter_append_perm _ R
  · intro r hrM hrF
    rw [hM] at hrM
    rw [hF, hFneg] at hrF
    have h1 := (List.mem_filter.mp hrM).2
    have h2 := (List.mem_filter.mp hrF).2
    rw [h1] at h2
    simp at h2

/-- Witness for C6 at the worked example's two `USA` rows. -/
theorem c6_gender_partition_witness :
    (∀ r ∈ [rA, rB], r.gender = some "Male" ∨ r.gender = some "Female") ∧
      (List.Perm (genderStage ["Male"] [rA, rB] ++ genderStage ["Female"] [rA, rB]) [rA, rB] ∧
        ∀ r ∈ genderStage ["Male"] [rA, rB], r ∉ genderStage ["Female"] [rA, rB]) :=
  ⟨by decide, c6_gender_partition [rA, rB] (by decide)⟩

/-- The medal domain of the data model: a medal cell is null, one of the
three medal names, or the explicit `'No Medal'` sentinel. -/
def medalDomain (m : Option String) : Bool :=
  m == none || m == some "Gold" || m == some "Silver" || m == some "Bronze" ||
    m == some "No Medal"

/-- Counting over a cons. -/
theorem countB_cons {α : Type} (p : α → Bool) (a : α) (l : List α) :
    countB p (a :: l) = (if p a then 1 else 0) + countB p l := by
  by_cases h : p a <;> simp [countB, List.filter_cons, h, Nat.add_comm]

/-- Over any rows whose medal cells stay in the data model's medal domain,
the three per-medal counts add up to the `medal_present` count. -/
theorem tally_counts (l : List Record) (h : ∀ r ∈ l, medalDomain r.medal = true) :
    countB (fun r => r.medal == some "Gold") l +
      countB (fun r => r.medal == some "Silver") l +
      countB (fun r => r.medal == some "Bronze") l = countB medal_present l := by
  induction l with
  | nil => simp [countB]
  | cons r t ih =>
      have hr := h r (List.mem_cons_self r t)
      have ih' := ih (fun x hx => h x (List.mem_cons_of_mem r hx))
      rw [countB_cons, countB_cons, countB_cons, countB_cons]
      simp only [medalDomain, Bool.or_eq_true, beq_iff_eq] at hr
      rcases hr with ((((h1 | h1) | h1) | h1) | h1) <;> simp [medal_present, h1] <;> omega

/-- C1: in the per-NOC medal tally `metrics_by_noc`, for every input whose
medal column stays in the data model's domain (null, `Gold`, `Silver`,
`Bronze`, or the `'No Medal'` sentinel), every group satisfies
`Gold + Silver + Bronze = Total_Medals`, where `Total_Medals` counts the
rows whose medal is present and not the `'No Medal'` sentinel. -/
theorem c1_medal_tally (R : List Record) (h : ∀ r ∈ R, medalDomain r.medal = true) :
    ∀ m ∈ metrics_by_noc R, m.Gold + m.Silver + m.Bronze = m.Total_Medals := by
  intro m hm
  obtain ⟨k, _, rfl⟩ := List.mem_map.mp hm
  simp only [metrics_for]
  exact tally_counts _ (fun r hr => h r (List.mem_filter.mp hr).1)

/-- Witness for C1 at the worked example extended with a `'No Medal'`
sentinel row. -/
theorem c1_medal_tally_witness :
    (∀ r ∈ [rA, rB, rC, rN], medalDomain r.medal = true) ∧
      ∀ m ∈ metrics_by_noc [rA, rB, rC, rN],
        m.Gold + m.Silver + m.Bronze = m.Total_Medals :=
  ⟨by decide, c1_medal_tally [rA, rB, rC, rN] (by decide)⟩

/-- A main table whose header lacks the required `medal` column. -/
def t3 : RawTable :=
  ⟨["year", "type", "noc", "age", "gender", "discipline_grouped", "name", "discipline"], []⟩

/-- C3 counterexample: on a main table missing the required `medal`
column, `load_data` does not surface a structured `SchemaError` to the
caller — it returns the empty table `pd.DataFrame()` as a normal value,
the very same value it returns for a missing file, so the caller receives
no error at all. -/
theorem c3_counterexample :
    load_data (.ok t3) = RawTable.mk [] [] ∧
      load_data (.ok t3) = load_data .fileNotFound := by
  constructor <;> rfl

/-- C3 amended: on a main table missing at least one required field
(year, type, noc, medal, age, gender, discipline_grouped, name,
discipline), `load_data` reports the missing columns through the UI and
returns the empty table as a normal return value (no structured error is
raised); downstream code detects the failure by the emptiness of the
result. -/
theorem c3_load_data_missing_returns_empty (t : RawTable)
    (h : (missing_cols t).isEmpty = false) :
    load_data (.ok t) = ⟨[], []⟩ := by
  simp [load_data, h]

/-- Witness for the amended C3 at the concrete table missing `medal`. -/
theorem c3_load_data_missing_returns_empty_witness :
    (missing_cols t3).isEmpty = false ∧ load_data (.ok t3) = ⟨[], []⟩ :=
  ⟨by decide, c3_load_data_missing_returns_empty t3 (by decide)⟩

/-- C9 counterexample: on a record set whose every gender is null, the
filter interface offers no gender option, the complete selection is the
empty list, and the gender filter is skipped — the null-gender row `rN`
is NOT excluded, so the claim fails as stated for such record sets. -/
theorem c9_counterexample :
    rN.gender = none ∧ gender_options [rN] = [] ∧
      genderStage (gender_options [rN]) [rN] = [rN] :=
  ⟨rfl, by decide, by decide⟩

/-- C9 amended: for every record set offering at least one (non-null)
gender option, selecting the complete set of offered gender options and
applying the gender filter excludes every row with a null gender, because
the non-empty selection triggers the `isin` membership filter, which
rejects nulls; so "all genders selected" is not a no-op on data with null
genders. -/
theorem c9_all_selected_excludes_null_gender (R : List Record)
    (h : (gender_options R).isEmpty = false) :
    ∀ r ∈ genderStage (gender_options R) R, r.gender.isSome = true := by
  intro r hr
  rw [genderStage, h] at hr
  simp only [Bool.false_eq_true, if_false] at hr
  have hmem := (List.mem_filter.mp hr).2
  cases hg : r.gender with
  | none => rw [hg] at hmem; simp [optIsin] at hmem
  | some s => rfl

/-- Witness for the amended C9: a view with one `Male` row and one
null-gender row; all offered options selected, the null row is excluded. -/
theorem c9_all_selected_excludes_null_gender_witness :
    (gender_options [rA, rN]).isEmpty = false ∧
      ∀ r ∈ genderStage (gender_options [rA, rN]) [rA, rN], r.gender.isSome = true :=
  ⟨by decide, c9_all_selected_excludes_null_gender [rA, rN] (by decide)⟩

/-- Appending a null cell to a column leaves `Series.mean` unchanged:
the null enters neither the numerator nor the denominator. -/
theorem meanOpt_append_none (l : List (Option ℚ)) :
    meanOpt (l ++ [none]) = meanOpt l := by
  simp [meanOpt, List.filterMap_append]

/-- On a column with at least one present cell, `Series.mean` is the sum
of the present cells divided by their number. -/
theorem meanOpt_eq_sum_div (vs : List (Option ℚ)) (h : vs.filterMap id ≠ []) :
    meanOpt vs = some ((vs.filterMap id).sum / (vs.filterMap id).length) := by
  rw [meanOpt]
  have he : (vs.filterMap id).isEmpty = false := by
    cases hx : vs.filterMap id with
    | nil => exact absurd hx h
    | cons a l => rfl
  simp [he]

/-- C8: the grouped numeric summary `age_by_discipline` computes, per
discipline group, the arithmetic mean over exactly the rows whose `age`
is non-null: every emitted pair carries the group's skipna mean, adding a
null-age row to the view leaves its group's mean unchanged (the row
enters neither numerator nor denominator — it is not treated as zero),
and on a group with at least one non-null age the mean is the sum of the
non-null ages divided by their count (the divisor excludes null rows). -/
theorem c8_mean_excludes_null_ages (R : List Record) (ds : List String) (d : String)
    (r0 : Record) (hd : r0.discipline = d) (hds : ds.contains d = true)
    (h0 : r0.age = none) :
    (∀ x ∈ age_by_discipline R ds, x.2 = groupMeanAge R ds x.1) ∧
      groupMeanAge (R ++ [r0]) ds d = groupMeanAge R ds d ∧
      (nonNullAges R ds d ≠ [] →
        groupMeanAge R ds d =
          some ((nonNullAges R ds d).sum / (nonNullAges R ds d).length)) := by
  refine ⟨?_, ?_, ?_⟩
  · intro x hx
    simp only [age_by_discipline, List.mem_map] at hx
    obtain ⟨d', _, rfl⟩ := hx
    rfl
  · have hq1 : ds.contains r0.discipline = true := by rw [hd]; exact hds
    have hmem : d ∈ ds := by simpa using hds
    have hages : agesOf (R ++ [r0]) ds d = agesOf R ds d ++ [none] := by
      simp [agesOf, List.filter_append, List.filter_cons, hq1, hmem, hd, h0]
    rw [groupMeanAge, groupMeanAge, hages, meanOpt_append_none]
  · intro hne
    exact meanOpt_eq_sum_div (agesOf R ds d) hne

/-- Witness for C8: one 22-year-old `Judo` row, plus the null-age `Judo`
row `rD`; the group mean is unchanged by the null row and equals the
one-element average. -/
theorem c8_mean_excludes_null_ages_witness :
    (rD.discipline = "Judo" ∧ (["Judo"] : List String).contains "Judo" = true ∧
        rD.age = none) ∧
      groupMeanAge ([rA] ++ [rD]) ["Judo"] "Judo" = groupMeanAge [rA] ["Judo"] "Judo" ∧
      groupMeanAge [rA] ["Judo"] "Judo" =
        some ((nonNullAges [rA] ["Judo"] "Judo").sum /
          (nonNullAges [rA] ["Judo"] "Judo").length) :=
  ⟨⟨rfl, by decide, rfl⟩,
    (c8_mean_excludes_null_ages [rA] ["Judo"] "Judo" rD rfl (by decide) rfl).2.1,
    (c8_mean_excludes_null_ages [rA] ["Judo"] "Judo" rD rfl (by decide) rfl).2.2
      (by decide)⟩

/-- C10: the coordinate-table loader is total over all read outcomes and
never surfaces an exception: a missing file, any other read failure, and
a table missing one of the four required columns all yield the empty
four-column table, and every row it does return has no null in any of
`noc`, `country`, `latitude`, `longitude` (the output row type is exactly
those four columns). -/
theorem c10_load_noc_coords_total (o : ReadOutcome) :
    load_noc_coords .fileNotFound = [] ∧
      load_noc_coords .otherError = [] ∧
      (∀ t : RawCoordTable,
        (t.hasNoc && t.hasCountry && t.hasLatitude && t.hasLongitude) = false →
          load_noc_coords (.ok t) = []) ∧
      ∀ r ∈ load_noc_coords o, rowComplete r = true := by
  refine ⟨rfl, rfl, fun t ht => by simp [load_noc_coords, ht], ?_⟩
  intro r hr
  cases o with
  | ok t =>
      by_cases hc : (t.hasNoc && t.hasCountry && t.hasLatitude && t.hasLongitude) = true
      · rw [load_noc_coords, if_pos hc] at hr
        exact (List.mem_filter.mp hr).2
      · rw [load_noc_coords, if_neg hc] at hr
        exact absurd hr (List.not_mem_nil r)
  | fileNotFound => exact absurd hr (List.not_mem_nil r)
  | otherError => exact absurd hr (List.not_mem_nil r)

/-- A complete coordinate row. -/
def cW : RawCoordRow := ⟨some "USA", some "United States", some 38, some (-77)⟩

/-- A coordinate row with null `country` and `longitude` cells. -/
def cBad : RawCoordRow := ⟨some "XXX", none, some 0, none⟩

/-- A well-formed coordinate table holding both rows. -/
def t10 : RawCoordTable := ⟨true, true, true, true, [cW, cBad]⟩

/-- A coordinate table whose header lacks the `country` column. -/
def t10bad : RawCoordTable := ⟨true, false, true, true, [cW]⟩

/-- Witness for C10 at concrete tables: the column-missing table loads as
empty, and every loaded row of the well-formed table is null-free. -/
theorem c10_load_noc_coords_total_witness :
    load_noc_coords (.ok t10bad) = [] ∧
      ∀ r ∈ load_noc_coords (.ok t10), rowComplete r = true :=
  ⟨(c10_load_noc_coords_total (.ok t10)).2.2.1 t10bad (by decide),
    (c10_load_noc_coords_total (.ok t10)).2.2.2⟩

/-- C7: the Join Resolver `df_map_data`.  (i) No metrics row that passes
the `Total_Medals > 0` policy and has a valid coordinate match (same
`noc`, non-null latitude and longitude) is dropped: it reaches the output
paired with that coordinate row.  (ii) No coordinate is ever fabricated:
every output row carries a coordinate row drawn from the coordinate table
whose `noc` equals the metrics row's `noc` (unmatched metrics rows, whose
join result has null coordinates, never reach the output).  (iii) Every
row with `Total_Medals <= 0` is removed before the result is handed to
the map renderer. -/
theorem c7_join_resolver (metrics : List NocMetrics) (coords : List RawCoordRow) :
    (∀ m ∈ metrics, 0 < m.Total_Medals →
      ∀ c ∈ coords, c.noc = some m.noc → c.latitude.isSome = true →
        c.longitude.isSome = true → (m, some c) ∈ df_map_data metrics coords) ∧
      (∀ x ∈ df_map_data metrics coords,
        ∃ c, x.2 = some c ∧ c ∈ coords ∧ c.noc = some x.1.noc) ∧
      ∀ x ∈ df_map_data metrics coords, 0 < x.1.Total_Medals := by
  refine ⟨?_, ?_, ?_⟩
  · intro m hm hTM c hc hnoc hlat hlong
    have hcm : c ∈ coordMatches coords m :=
      List.mem_filter.mpr ⟨hc, by simp [hnoc]⟩
    have hne : (coordMatches coords m).isEmpty = false := by
      cases hx : coordMatches coords m with
      | nil => rw [hx] at hcm; exact absurd hcm (List.not_mem_nil c)
      | cons a l => rfl
    refine List.mem_filter.mpr ⟨?_, ?_⟩
    · refine List.mem_flatMap.mpr ⟨m, List.mem_filter.mpr ⟨hm, by simpa using hTM⟩, ?_⟩
      rw [leftJoinRows, hne]
      simp only [Bool.false_eq_true, if_false]
      exact List.mem_map.mpr ⟨c, hcm, rfl⟩
    · simp [joinRowKept, hlat, hlong]
  · intro x hx
    have hj := (List.mem_filter.mp hx).1
    have hk := (List.mem_filter.mp hx).2
    obtain ⟨m, _, hxm⟩ := List.mem_flatMap.mp hj
    by_cases hne : (coordMatches coords m).isEmpty = true
    · rw [leftJoinRows, if_pos hne] at hxm
      simp only [List.mem_singleton] at hxm
      rw [hxm] at hk
      simp [joinRowKept] at hk
    · rw [leftJoinRows, if_neg hne] at hxm
      obtain ⟨c, hcmem, rfl⟩ := List.mem_map.mp hxm
      have hcf := List.mem_filter.mp hcmem
      exact ⟨c, rfl, hcf.1, by simpa using hcf.2⟩
  · intro x hx
    have hj := (List.mem_filter.mp hx).1
    obtain ⟨m, hmp, hxm⟩ := List.mem_flatMap.mp hj
    have hTM : 0 < m.Total_Medals := by simpa using (List.mem_filter.mp hmp).2
    by_cases hne : (coordMatches coords m).isEmpty = true
    · rw [leftJoinRows, if_pos hne] at hxm
      simp only [List.mem_singleton] at hxm
      rw [hxm]
      exact hTM
    · rw [leftJoinRows, if_neg hne] at hxm
      obtain ⟨c, _, rfl⟩ := List.mem_map.mp hxm
      exact hTM

/-- The `USA` metrics row of the worked example (one gold medal). -/
def mW : NocMetrics := ⟨"USA", 2, 1, 1, 0, 0⟩

/-- Witness for C7 at a one-row metrics table and one-row coordinate
table with matching `noc`. -/
theorem c7_join_resolver_witness :
    (mW, some cW) ∈ df_map_data [mW] [cW] ∧
      (∀ x ∈ df_map_data [mW] [cW],
        ∃ c, x.2 = some c ∧ c ∈ [cW] ∧ c.noc = some x.1.noc) ∧
      ∀ x ∈ df_map_data [mW] [cW], 0 < x.1.Total_Medals :=
  ⟨(c7_join_resolver [mW] [cW]).1 mW (by decide) (by decide) cW (by decide) (by decide)
      (by decide) (by decide),
    (c7_join_resolver [mW] [cW]).2.1, (c7_join_resolver [mW] [cW]).2.2⟩
